import Mathlib

/-!
Verification development for the `tmc_http_server` repository
(`src/tmc_http_server/tmc_http_server.py`), a small monitoring HTTP server.

The embedding below translates the pure core of the module — the value
coercion layer (`try_parse`, `unpack`), route-key formatting, route
registration (`TMCServer.add_url_handle`), the startup check of
`TMCServer.run`, and the request-dispatch logic of
`TMCRequestHandler.do_GET` / `do_POST` — into Lean definitions.

Python exceptions are modelled with `Except`: every primitive operation
that can raise (`value[0]`, `value.items`, iteration over a non-iterable,
`json.loads` on malformed input, reading an unassigned local variable)
produces an explicit error value, and each `try/except` of the source is
translated arm by arm, including the rule that an exception raised inside
one `except` handler is not caught by a sibling handler of the same `try`.
-/

namespace TMC

/-- Python values as they flow through the coercion layer: strings,
integers, floats (all float literals in play are finite decimals, so they
are represented exactly as rationals), booleans, `None`, lists, and
string-keyed dicts (every dict the server builds or parses is keyed by
strings). Dicts keep insertion order, as Python dicts do. -/
inductive Py where
  | str : String → Py
  | int : Int → Py
  | float : Rat → Py
  | bool : Bool → Py
  | none : Py
  | list : List Py → Py
  | dict : List (String × Py) → Py

/-- Python exception classes that the translated code can raise or catch.
`nameError` stands for `UnboundLocalError` (a subclass of `NameError`),
raised when a local variable is read before assignment. -/
inductive PyErr where
  | keyError
  | typeError
  | attributeError
  | indexError
  | nameError
  | jsonDecodeError
deriving DecidableEq

/-- Value of a list of decimal digit characters. -/
def digitsToNat (ds : List Char) : Nat :=
  ds.foldl (fun acc c => acc * 10 + (c.toNat - 48)) 0

/-- Modelled from the external `json` collaborator: JSON number parsing as
performed by `json.loads` — an optional minus sign, an integer part with
no superfluous leading zero, and an optional fraction part.  A number
without a fraction part parses to a Python `int`, one with a fraction part
to a `float`.  Exponent forms do not occur in this development and are
treated as parse failures. -/
def parseJsonNumber (cs : List Char) : Except PyErr Py :=
  let p :=
    match cs with
    | '-' :: rest => (true, rest)
    | _ => (false, cs)
  let neg := p.1
  let cs1 := p.2
  let intPart := cs1.takeWhile Char.isDigit
  let rest1 := cs1.dropWhile Char.isDigit
  if intPart.isEmpty then .error .jsonDecodeError
  else if intPart.length > 1 && intPart.headD '0' == '0' then .error .jsonDecodeError
  else
    match rest1 with
    | [] =>
        let n : Int := Int.ofNat (digitsToNat intPart)
        .ok (.int (if neg then -n else n))
    | '.' :: frac =>
        if frac.isEmpty || !(frac.all Char.isDigit) then .error .jsonDecodeError
        else
          let q : Rat :=
            (digitsToNat intPart : Rat) + (digitsToNat frac : Rat) / ((10 : Rat) ^ frac.length)
          .ok (.float (if neg then -q else q))
    | _ => .error .jsonDecodeError

/-- Modelled from the external `json` collaborator: `json.loads`
restricted to the scalar literals this code base ever feeds it — the
keywords `true` / `false` / `null` and numbers.  Every other input
(including the empty string, bare words such as `foo`, and the Python
spellings `True` / `None`) raises `json.JSONDecodeError`, exactly as
`json.loads` does on those inputs. -/
def json_loads (s : String) : Except PyErr Py :=
  if s = "true" then .ok (.bool true)
  else if s = "false" then .ok (.bool false)
  else if s = "null" then .ok Py.none
  else parseJsonNumber s.toList

/-- The string branch of `try_parse` (tmc_http_server.py lines 71–84):
attempt `json.loads`, and on `JSONDecodeError` fall back to the literal
tokens `"True"`, `"False"`, `"None"`; otherwise return the string
unchanged.  This branch never raises. -/
def try_parse_str (s : String) : Py :=
  match json_loads s with
  | .ok v => v
  | .error _ =>
      if s = "True" then .bool true
      else if s = "False" then .bool false
      else if s = "None" then Py.none
      else .str s

mutual

/-- Embedding of `try_parse` (tmc_http_server.py lines 61–93).

For a non-string value the source runs
`return {key: try_parse(val) for key, val in value.items()}` inside a
`try` with handlers `except AttributeError` (which returns
`[try_parse(val) for val in value]`) and `except TypeError` (which
returns `value` unchanged).  Consequences translated here:

* dict input: `.items` succeeds; a `TypeError` escaping a recursive call
  inside the comprehension is caught by the `except TypeError` arm and the
  original dict is returned; an `AttributeError` from the comprehension
  (impossible in practice) would make the handler iterate the dict, which
  yields its keys;
* list input: `.items` raises `AttributeError`, so the handler rebuilds
  the list element-wise; an exception raised by a recursive call inside
  that handler is raised in an `except` block and therefore is NOT caught
  by the sibling `except TypeError` arm — it propagates;
* scalar input (int, float, bool, None): `.items` raises
  `AttributeError`, the handler then iterates a non-iterable, and the
  resulting `TypeError`, being raised inside the handler, propagates
  uncaught. -/
def try_parse : Py → Except PyErr Py
  | .str s => .ok (try_parse_str s)
  | .dict kvs =>
      match try_parse_dict kvs with
      | .ok vs => .ok (.dict vs)
      | .error .attributeError => .ok (.list (kvs.map fun kv => try_parse_str kv.1))
      | .error .typeError => .ok (.dict kvs)
      | .error e => .error e
  | .list xs =>
      match try_parse_list xs with
      | .ok vs => .ok (.list vs)
      | .error e => .error e
  | _ => .error .typeError

/-- Element-wise recursion of `try_parse` over a list
(the comprehension `[try_parse(val) for val in value]`);
the first exception raised propagates. -/
def try_parse_list : List Py → Except PyErr (List Py)
  | [] => .ok []
  | x :: xs => do
      let v ← try_parse x
      let vs ← try_parse_list xs
      return v :: vs

/-- Value-wise recursion of `try_parse` over a dict
(the comprehension `{key: try_parse(val) for key, val in value.items()}`);
the first exception raised propagates to the enclosing handlers. -/
def try_parse_dict : List (String × Py) → Except PyErr (List (String × Py))
  | [] => .ok []
  | kv :: kvs => do
      let v2 ← try_parse kv.2
      let rest ← try_parse_dict kvs
      return (kv.1, v2) :: rest

end

mutual

/-- Embedding of `unpack` (tmc_http_server.py lines 96–126).

For a non-string value the source probes `first = value[0]` inside a
`try`, then either collapses a length-one collection to
`try_parse(first)` or rebuilds it as `[unpack(item) for item in value]`.
Handlers: `except KeyError` (dict probe) runs the dict comprehension when
the dict is non-empty and otherwise falls through; `except (TypeError,
AttributeError): pass` falls through; the fall-through is
`return try_parse(value)`.  Translated consequences:

* empty list: `value[0]` raises `IndexError`, which no handler covers, so
  it propagates uncaught;
* non-empty list: length one collapses to `try_parse` of the sole
  element; a `TypeError` escaping from inside the `try` body is caught
  and the code falls through to `try_parse` of the whole list; a
  `KeyError` from inside the body (impossible in practice) would make the
  handler evaluate `value.items` on a list and raise `AttributeError`;
  any other exception (e.g. `IndexError` from a nested empty list)
  propagates;
* string-keyed dict: `value[0]` raises `KeyError`; a non-empty dict is
  rebuilt value-wise (exceptions raised inside that handler propagate),
  an empty dict falls through to `try_parse`;
* scalar: `value[0]` raises `TypeError`, caught, falling through to
  `try_parse`. -/
def unpack : Py → Except PyErr Py
  | .str s => .ok (try_parse_str s)
  | .list [] => .error .indexError
  | .list (x :: xs) =>
      match (if xs.isEmpty then try_parse x
             else
               match unpack_list (x :: xs) with
               | .ok vs => .ok (.list vs)
               | .error e => .error e : Except PyErr Py) with
      | .error .typeError => try_parse (.list (x :: xs))
      | .error .attributeError => try_parse (.list (x :: xs))
      | .error .keyError => .error .attributeError
      | r => r
  | .dict [] => try_parse (.dict [])
  | .dict (kv :: kvs) =>
      match unpack_dict (kv :: kvs) with
      | .ok vs => .ok (.dict vs)
      | .error e => .error e
  | v => try_parse v

/-- Element-wise recursion of `unpack` over a list
(`[unpack(item) for item in value]`); the first exception propagates. -/
def unpack_list : List Py → Except PyErr (List Py)
  | [] => .ok []
  | x :: xs => do
      let v ← unpack x
      let vs ← unpack_list xs
      return v :: vs

/-- Value-wise recursion of `unpack` over a dict
(`{key: unpack(val) for key, val in value.items()}`); the first exception
propagates. -/
def unpack_dict : List (String × Py) → Except PyErr (List (String × Py))
  | [] => .ok []
  | kv :: kvs => do
      let v2 ← unpack kv.2
      let rest ← unpack_dict kvs
      return (kv.1, v2) :: rest

end

/-- ASCII uppercasing of one character, the effect of Python `str.upper`
on the ASCII verb strings used here. -/
def charUpper (c : Char) : Char :=
  if c.isLower then Char.ofNat (c.toNat - 32) else c

/-- Python `str.upper` on ASCII strings (HTTP verb names). -/
def py_upper (s : String) : String :=
  (s.toList.map charUpper).asString

/-- Embedding of `format_route_key` (tmc_http_server.py lines 129–137):
`"{}, {}".format(route, method.upper())`. -/
def format_route_key (route method : String) : String :=
  route ++ ", " ++ py_upper method

/-- Embedding of the `HTTP_METHODS` tuple (tmc_http_server.py
lines 30–33). -/
def HTTP_METHODS : List String := ["GET", "POST"]

/-- Split a character list at every occurrence of `c`
(Python `str.split(c)` semantics: `n` separators produce `n + 1`
pieces). -/
def splitOnChar (c : Char) : List Char → List (List Char)
  | [] => [[]]
  | x :: xs =>
      let rest := splitOnChar c xs
      if x = c then [] :: rest
      else
        match rest with
        | r :: rs => (x :: r) :: rs
        | [] => [[x]]

/-- Python whitespace characters matched by the regex class `\s`. -/
def isPySpace (c : Char) : Bool :=
  c == ' ' || c == '\t' || c == '\n' || c == '\r' ||
    c == Char.ofNat 11 || c == Char.ofNat 12

/-- Embedding of `re.split(COMMA, methods)` with `COMMA = r",\s*"`
(tmc_http_server.py lines 35, 319–321): split a verb string at each comma
together with the whitespace run following that comma. -/
def splitVerbString (s : String) : List String :=
  match splitOnChar ',' s.toList with
  | [] => []
  | first :: rest =>
      first.asString :: rest.map (fun cs => (cs.dropWhile isPySpace).asString)

/-- Modelled from the external `urllib.parse` collaborator:
`parse_qs` grouping of one `name=value` field into the accumulated
mapping — a repeated name appends to that name's value list, a new name
is appended at the end (dict insertion order). -/
def addQsPair (acc : List (String × List String)) (k v : String) :
    List (String × List String) :=
  if acc.any (fun p => p.1 == k) then
    acc.map (fun p => if p.1 == k then (p.1, p.2 ++ [v]) else p)
  else acc ++ [(k, [v])]

/-- Modelled from the external `urllib.parse` collaborator: `parse_qs`
with its default arguments — split the query on `&`, keep only fields
that contain `=` with a non-empty value (blank values are dropped), and
group values by name in first-appearance order.  Percent-decoding and
`+`-to-space translation are omitted; no input in this development uses
them. -/
def parse_qs (s : String) : List (String × List String) :=
  (splitOnChar '&' s.toList).foldl
    (fun acc field =>
      let name := field.takeWhile (fun c => c != '=')
      let rest := field.dropWhile (fun c => c != '=')
      match rest with
      | [] => acc
      | _ :: value =>
          if value.isEmpty then acc
          else addQsPair acc name.asString value.asString)
    []

/-- View of a `parse_qs` result as the Python value handed to `unpack`:
a dict mapping each name to its list of string values. -/
def qsToPy (qs : List (String × List String)) : Py :=
  .dict (qs.map fun p => (p.1, .list (p.2.map Py.str)))

/-- Embedding of `self.path.split("?")[0]` (tmc_http_server.py line 187):
the request path up to the first `?`. -/
def stripQuery (s : String) : String :=
  (s.toList.takeWhile (fun c => c != '?')).asString

/-- Modelled from the external `urllib.parse` collaborator:
`urlparse(path).query` — the part after the first `?`, up to a `#`. -/
def queryOf (s : String) : String :=
  (((s.toList.dropWhile (fun c => c != '?')).drop 1).takeWhile
    (fun c => c != '#')).asString

/-- Does `hay` start with `needle`? -/
def startsWithList : List Char → List Char → Bool
  | _, [] => true
  | [], _ :: _ => false
  | h :: hs, n :: ns => h == n && startsWithList hs ns

/-- Does the second list contain the first as a contiguous run? -/
def containsSubList (needle : List Char) : List Char → Bool
  | [] => needle.isEmpty
  | c :: hs => startsWithList (c :: hs) needle || containsSubList needle hs

/-- Python substring membership `needle in hay` on strings. -/
def containsSub (hay needle : String) : Bool :=
  containsSubList needle.toList hay.toList

/-- Python truthiness of a `Py` value (the `or {}` on
tmc_http_server.py line 225 and the `if value` on line 120). -/
def pyFalsy : Py → Bool
  | Py.none => true
  | .bool b => !b
  | .int n => n == 0
  | .float q => q == 0
  | .str s => s.isEmpty
  | .list xs => xs.isEmpty
  | .dict kvs => kvs.isEmpty

/-- Registration errors of `TMCServer.add_url_handle`
(tmc_http_server.py lines 311–338): the `AssertionError` raised when the
server is already serving, the `UnimplementedHTTPMethodError` for a verb
outside `HTTP_METHODS`, and the `AssertionError` for a duplicate route
key. -/
inductive RegErr where
  | serverAlreadyRunning
  | unimplementedMethod : String → RegErr
  | duplicateRoute : String → String → RegErr
deriving DecidableEq

/-- The parts of `TMCServer` state that registration and startup touch:
the private `__serving` flag and the private `__route_rules` dict, kept
as an insertion-ordered association list from route key to an opaque
handler identifier. -/
structure ServerState where
  serving : Bool
  route_rules : List (String × Nat)

/-- The `methods` argument of `add_url_handle`: either a comma-separated
string (the default is the string `"GET"`) or a list of verb names. -/
inductive Verbs where
  | str : String → Verbs
  | list : List String → Verbs

/-- The `mthds` normalization of tmc_http_server.py lines 319–321: a
string argument is split on comma-plus-whitespace, a list is used as
given. -/
def normalizeVerbs : Verbs → List String
  | .str s => splitVerbString s
  | .list l => l

/-- Embedding of the registration loop of `add_url_handle`
(tmc_http_server.py lines 323–340).  The verbs are processed in order;
each valid, fresh verb is inserted into the table BEFORE the next verb is
examined, so when a later verb fails the earlier insertions of the same
call remain.  The returned pair is (the exception raised, if any; the
table as it stands when the call returns or the exception propagates). -/
def addVerbs (route : String) (h : Nat) :
    List String → List (String × Nat) → Option RegErr × List (String × Nat)
  | [], rules => (Option.none, rules)
  | m :: ms, rules =>
      if !(HTTP_METHODS.contains (py_upper m)) then
        (some (.unimplementedMethod m), rules)
      else
        if rules.any (fun kv => kv.1 == format_route_key route m) then
          (some (.duplicateRoute route m), rules)
        else
          addVerbs route h ms (rules ++ [(format_route_key route m, h)])

/-- Embedding of `TMCServer.add_url_handle` (tmc_http_server.py
lines 295–342): refuse outright while serving, otherwise normalize the
verbs and run the registration loop.  The second component is the server
state after the call, whether it returned normally or raised. -/
def add_url_handle (st : ServerState) (route : String) (h : Nat)
    (methods : Verbs) : Option RegErr × ServerState :=
  if st.serving then (some .serverAlreadyRunning, st)
  else
    let r := addVerbs route h (normalizeVerbs methods) st.route_rules
    (r.1, { st with route_rules := r.2 })

/-- The two per-verb guards of the registration loop (tmc_http_server.py
lines 324 and 332), as a proposition over a whole verb list: each verb in
the list, in order, is an implemented method AND its route key is absent
from the table as it stands when that verb is examined — where the table
grows by the verb's entry before the next verb is examined, exactly as
the loop mutates `__route_rules`. -/
def VerbsAllPass (route : String) (h : Nat) :
    List String → List (String × Nat) → Prop
  | [], _ => True
  | m :: ms, rules =>
      py_upper m ∈ HTTP_METHODS ∧
      (rules.any fun kv => kv.1 == format_route_key route m) = false ∧
      VerbsAllPass route h ms (rules ++ [(format_route_key route m, h)])

/-- A verb fails the registration guards against a given table: it is
either not an implemented method (line 324) or its route key is already
present (line 332). -/
def VerbFails (route : String) (rules : List (String × Nat)) (m : String) : Prop :=
  py_upper m ∉ HTTP_METHODS ∨
    (rules.any fun kv => kv.1 == format_route_key route m) = true

/-- Outcome of the pre-loop part of `TMCServer.run`: how many times the
error callback was invoked during startup, and the state afterwards. -/
structure StartOutcome where
  error_reports : Nat
  state : ServerState

/-- Embedding of the startup section of `TMCServer.run`
(tmc_http_server.py lines 364–376): with an empty route table the error
callback is invoked exactly once (with an `AssertionError`), with a
non-empty table not at all; in either case `__serving` is then set and
the request loop is entered. -/
def run_startup (st : ServerState) : StartOutcome :=
  { error_reports := if st.route_rules.isEmpty then 1 else 0
    state := { st with serving := true } }

/-- How the registered handler is invoked by dispatch: with no
arguments, with one positional argument, or with keyword arguments. -/
inductive HandlerCall where
  | noArgs : HandlerCall
  | positional : String → HandlerCall
  | keywords : List (String × Py) → HandlerCall

/-- Result of dispatching one request.  `notFound` is the 404 path of
`handle_unknown_route` (fixed HTML body, the error callback is NOT
invoked).  `success h call` means handler `h` was looked up under the
route key and invoked as `call`; the response is then a 200 whose body is
the string form of the handler's return value.  `internalError e` means
exception `e` reached the `except Exception` arm: the error callback is
invoked with it and a fixed 500 HTML body is written. -/
inductive DispatchResult where
  | notFound : DispatchResult
  | success : Nat → HandlerCall → DispatchResult
  | internalError : PyErr → DispatchResult

/-- Python dict lookup `route_rules[key]`, as an `Option`. -/
def lookupRoute (rules : List (String × Nat)) (key : String) : Option Nat :=
  (rules.find? (fun kv => kv.1 == key)).map (fun kv => kv.2)

/-- A GET request as `do_GET` sees it: `self.path`, the raw request
target which may still carry a query component. -/
structure GetRequest where
  path : String

/-- Embedding of `TMCRequestHandler.do_GET` (tmc_http_server.py
lines 182–205): the route key is formed from the path with the query
stripped; unknown keys get a 404; otherwise the query string is parsed
with `parse_qs`, coerced with `unpack`, and splatted as keyword arguments
into the handler looked up under the key.  Any exception on that path
(including a non-mapping `unpack` result being splatted) lands in
`except Exception`: error callback plus 500. -/
def do_GET (rules : List (String × Nat)) (req : GetRequest) : DispatchResult :=
  if !(rules.any fun kv => kv.1 == format_route_key (stripQuery req.path) "GET") then
    .notFound
  else
    match unpack (qsToPy (parse_qs (queryOf req.path))) with
    | .ok (.dict kvs) =>
        match lookupRoute rules (format_route_key (stripQuery req.path) "GET") with
        | some hid => .success hid (.keywords kvs)
        | Option.none => .internalError .keyError
    | .ok _ => .internalError .typeError
    | .error e => .internalError e

/-- A POST request as `do_POST` sees it: `self.path` (used as the route
key WITHOUT stripping any query component), the optional `Content-Type`
header, and the request body (the model assumes the `Content-Length`
header matches the body, which the HTTP layer guarantees; an absent body
is the empty string). -/
structure PostRequest where
  path : String
  contentType : Option String
  body : String

/-- Embedding of `TMCRequestHandler.do_POST` (tmc_http_server.py
lines 207–254).  The route key is `self.path` verbatim; unknown keys get
a 404.  Otherwise, keyed on `Content-Type`:

* header absent: `"application/json" in content_type` evaluates `in` on
  `None` and raises `TypeError` → error callback plus 500;
* contains `application/json`: `kwargs = json.loads(body) or {}` — a
  malformed (in particular empty) body raises `JSONDecodeError` → 500; a
  falsy parse gives empty kwargs; a non-dict truthy parse raises
  `TypeError` when splatted; otherwise the handler is called with the
  parsed mapping as keyword arguments;
* equals `application/x-www-form-urlencoded`: the body is parsed with
  `parse_qs`, coerced with `unpack`, and splatted;
* any other header value: the source reaches `elif body:` but the local
  variable `body` was only ever assigned inside the two branches above,
  so reading it raises `UnboundLocalError` → error callback plus 500;
  neither the raw-body call nor the no-argument call can be reached. -/
def do_POST (rules : List (String × Nat)) (req : PostRequest) : DispatchResult :=
  if !(rules.any fun kv => kv.1 == format_route_key req.path "POST") then
    .notFound
  else
    match req.contentType with
    | Option.none => .internalError .typeError
    | some ct =>
        if containsSub ct "application/json" then
          match json_loads req.body with
          | .error e => .internalError e
          | .ok v =>
              match (if pyFalsy v then Py.dict [] else v) with
              | .dict kvs =>
                  match lookupRoute rules (format_route_key req.path "POST") with
                  | some hid => .success hid (.keywords kvs)
                  | Option.none => .internalError .keyError
              | _ => .internalError .typeError
        else
          if ct == "application/x-www-form-urlencoded" then
            match unpack (qsToPy (parse_qs req.body)) with
            | .ok (.dict kvs) =>
                match lookupRoute rules (format_route_key req.path "POST") with
                | some hid => .success hid (.keywords kvs)
                | Option.none => .internalError .keyError
            | .ok _ => .internalError .typeError
            | .error e => .internalError e
          else .internalError .nameError

/-- A successful dict lookup under a key implies the membership test
`key in route_rules` used by `handle_unknown_route` succeeds. -/
theorem any_of_lookup (rules : List (String × Nat)) (key : String) (hid : Nat)
    (hl : lookupRoute rules key = some hid) :
    rules.any (fun kv => kv.1 == key) = true := by
  induction rules with
  | nil => simp [lookupRoute] at hl
  | cons kv rest ih =>
      by_cases hk : (kv.1 == key) = true
      · simp [List.any_cons, hk]
      · have hk2 : (kv.1 == key) = false := by
          simpa using hk
        have hl2 : lookupRoute rest key = some hid := by
          simpa [lookupRoute, List.find?, hk2] using hl
        simp [List.any_cons, hk2, ih hl2]

/-- Exact characterization of a failing run of the registration loop:
the verb list splits as `pre ++ m :: suf` where every verb of `pre`
passed both guards at its point (and was therefore inserted), `m` is the
first failing verb — failing against the table as it stands after `pre`'s
insertions — the raised error is `m`'s error, and the loop leaves the
table equal to its prior contents extended by exactly `pre`'s entries. -/
theorem addVerbs_failure_split (route : String) (h : Nat) :
    ∀ (ms : List String) (rules : List (String × Nat)) (e : RegErr),
      (addVerbs route h ms rules).1 = some e →
      ∃ pre m suf, ms = pre ++ m :: suf ∧
        VerbsAllPass route h pre rules ∧
        VerbFails route
          (rules ++ pre.map (fun v => (format_route_key route v, h))) m ∧
        (e = RegErr.unimplementedMethod m ∨ e = RegErr.duplicateRoute route m) ∧
        (addVerbs route h ms rules).2
          = rules ++ pre.map (fun v => (format_route_key route v, h)) := by
  intro ms
  induction ms with
  | nil =>
      intro rules e hfail
      simp [addVerbs] at hfail
  | cons m ms ih =>
      intro rules e hfail
      by_cases hv : py_upper m ∈ HTTP_METHODS
      · cases hd : rules.any (fun kv => kv.1 == format_route_key route m) with
        | true =>
            have he : e = RegErr.duplicateRoute route m := by
              have : some (RegErr.duplicateRoute route m) = some e := by
                simpa [addVerbs, hv, hd] using hfail
              exact (Option.some.inj this).symm
            refine ⟨[], m, ms, rfl, trivial, Or.inr (by simpa using hd),
              Or.inr he, by simp [addVerbs, hv, hd]⟩
        | false =>
            have hfail2 :
                (addVerbs route h ms
                  (rules ++ [(format_route_key route m, h)])).1 = some e := by
              simpa [addVerbs, hv, hd] using hfail
            obtain ⟨pre, m2, suf, h1, h2, h3, h4, h5⟩ :=
              ih (rules ++ [(format_route_key route m, h)]) e hfail2
            refine ⟨m :: pre, m2, suf, by simp [h1], ⟨hv, hd, h2⟩, ?_, h4, ?_⟩
            · simpa [List.append_assoc] using h3
            · simp [addVerbs, hv, hd, h5, List.append_assoc]
      · have he : e = RegErr.unimplementedMethod m := by
          have : some (RegErr.unimplementedMethod m) = some e := by
            simpa [addVerbs, hv] using hfail
          exact (Option.some.inj this).symm
        exact ⟨[], m, ms, rfl, trivial, Or.inl (by simpa using hv),
          Or.inl he, by simp [addVerbs, hv]⟩

/-- C5: `try_parse` satisfies the stated scalar equations — `"true"`,
`"True"` map to true, `"false"` to false, `"null"`, `"None"` to null,
`"3"` to the integer 3, `"-0.5"` to the float -0.5, and `"foo"` comes
back as the unchanged string `"foo"`. -/
theorem try_parse_scalar_equations :
    try_parse (.str "true") = .ok (.bool true) ∧
    try_parse (.str "True") = .ok (.bool true) ∧
    try_parse (.str "false") = .ok (.bool false) ∧
    try_parse (.str "null") = .ok Py.none ∧
    try_parse (.str "None") = .ok Py.none ∧
    try_parse (.str "3") = .ok (.int 3) ∧
    try_parse (.str "-0.5") = .ok (.float (-(1 / 2))) ∧
    try_parse (.str "foo") = .ok (.str "foo") := by
  refine ⟨rfl, rfl, rfl, rfl, rfl, rfl, ?_, rfl⟩
  rw [show try_parse (.str "-0.5")
        = .ok (.float (-((0 : Rat) + (5 : Rat) / (10 : Rat) ^ (1 : Nat)))) from rfl]
  norm_num

/-- C9: evaluation of `try_parse` at the non-string scalar input `3`.
Contrary to the claim (and to the function's own docstring), the call
raises `TypeError`: `value.items` raises `AttributeError`, whose handler
iterates the non-iterable integer, and the `TypeError` raised inside that
handler is not caught by the sibling `except TypeError` clause. -/
theorem try_parse_int_input_raises :
    try_parse (Py.int 3) = .error .typeError := rfl

/-- C6: `unpack` collapses a one-element list to the coercion of its sole
element (`unpack(["3"]) == 3`) and recurses element-wise otherwise
(`unpack({"foo": ["bar","True","false","null","3"]})` yields
`foo = ["bar", true, false, null, 3]`). -/
theorem unpack_collapse_equations :
    unpack (.list [.str "3"]) = .ok (.int 3) ∧
    unpack (.dict [("foo",
        .list [.str "bar", .str "True", .str "false", .str "null", .str "3"])])
      = .ok (.dict [("foo",
          .list [.str "bar", .bool true, .bool false, Py.none, .int 3])]) :=
  ⟨rfl, rfl⟩

/-- C10: `unpack` applied to the empty list raises an uncaught
`IndexError` from the `value[0]` probe — the except clauses cover
`KeyError`, `TypeError` and `AttributeError` but not `IndexError`, so
`unpack` is not total on empty collections. -/
theorem unpack_empty_list_raises :
    unpack (.list []) = .error .indexError := rfl

/-- C7: every registration attempted after the server has transitioned to
serving fails synchronously with the server-already-running error
(an `AssertionError` in the source) and leaves the state, in particular
the route table, unchanged. -/
theorem add_url_handle_while_serving (st : ServerState) (route : String)
    (h : Nat) (methods : Verbs) (hs : st.serving = true) :
    add_url_handle st route h methods = (some RegErr.serverAlreadyRunning, st) := by
  simp [add_url_handle, hs]

/-- Witness for C7 at a concrete serving state. -/
theorem add_url_handle_while_serving_witness :
    (ServerState.mk true [("/a, GET", 3)]).serving = true ∧
    add_url_handle ⟨true, [("/a, GET", 3)]⟩ "/b" 4 (.list ["GET"])
      = (some RegErr.serverAlreadyRunning, ⟨true, [("/a, GET", 3)]⟩) :=
  ⟨rfl, add_url_handle_while_serving ⟨true, [("/a, GET", 3)]⟩ "/b" 4 (.list ["GET"]) rfl⟩

/-- C2 counterexample: registration is NOT atomic.  Registering
`["GET", "PUT"]` on an empty table fails with the unimplemented-method
error for `PUT`, yet the `GET` entry from the same call has already been
inserted, so the table is not as it was before the call. -/
theorem add_url_handle_not_atomic_cex :
    (add_url_handle ⟨false, []⟩ "/x" 7 (Verbs.list ["GET", "PUT"])).1
      = some (RegErr.unimplementedMethod "PUT") ∧
    (add_url_handle ⟨false, []⟩ "/x" 7 (Verbs.list ["GET", "PUT"])).2.route_rules
      = [("/x, GET", 7)] ∧
    (add_url_handle ⟨false, []⟩ "/x" 7 (Verbs.list ["GET", "PUT"])).2.route_rules
      ≠ [] := by
  refine ⟨rfl, rfl, by decide⟩

/-- C2 amended: a failing registration call (on a non-serving server,
where the failure is `UnimplementedHTTPMethodError` or the
duplicate-route `AssertionError`) is not all-or-nothing but stops at the
first failing verb.  Precisely: the normalized verb list splits as
`pre ++ m :: suf` where every verb of `pre` passed both guards at its
point, `m` is the first failing verb — not implemented, or duplicate
against the table as extended by `pre`'s insertions — the raised error is
`m`'s error, and the table afterwards equals its prior contents extended
by EXACTLY `pre`'s entries, so no verb from the failing one onward is
registered.  Moreover (second conjunct) a call whose FIRST verb already
fails against the prior table — e.g. a single-verb duplicate — leaves the
table unchanged. -/
theorem add_url_handle_failure_keeps_leading_verbs
    (st : ServerState) (route : String) (h : Nat) (methods : Verbs)
    (e : RegErr) (hserv : st.serving = false)
    (hfail : (add_url_handle st route h methods).1 = some e) :
    (∃ pre m suf, normalizeVerbs methods = pre ++ m :: suf ∧
      VerbsAllPass route h pre st.route_rules ∧
      VerbFails route
        (st.route_rules ++ pre.map (fun v => (format_route_key route v, h))) m ∧
      (e = RegErr.unimplementedMethod m ∨ e = RegErr.duplicateRoute route m) ∧
      (add_url_handle st route h methods).2.route_rules
        = st.route_rules ++ pre.map (fun v => (format_route_key route v, h))) ∧
    (∀ m0 rest, normalizeVerbs methods = m0 :: rest →
      VerbFails route st.route_rules m0 →
      (add_url_handle st route h methods).2.route_rules = st.route_rules) := by
  have hfail2 :
      (addVerbs route h (normalizeVerbs methods) st.route_rules).1 = some e := by
    simpa [add_url_handle, hserv] using hfail
  have htab : (add_url_handle st route h methods).2.route_rules
      = (addVerbs route h (normalizeVerbs methods) st.route_rules).2 := by
    simp [add_url_handle, hserv]
  obtain ⟨pre, m, suf, h1, h2, h3, h4, h5⟩ :=
    addVerbs_failure_split route h (normalizeVerbs methods) st.route_rules e hfail2
  constructor
  · exact ⟨pre, m, suf, h1, h2, h3, h4, htab.trans h5⟩
  · intro m0 rest h0 hfirst
    cases pre with
    | nil => simpa using htab.trans h5
    | cons p ps =>
        exfalso
        rw [h0] at h1
        simp only [List.cons_append, List.cons.injEq] at h1
        obtain ⟨hpass1, hpass2, _⟩ := h2
        cases hfirst with
        | inl hbad => exact hbad (h1.1 ▸ hpass1)
        | inr hdup =>
            rw [h1.1] at hdup
            rw [hpass2] at hdup
            exact Bool.false_ne_true hdup

/-- Witness for the amended C2 at the concrete failing call of the
counterexample: registering `["GET", "PUT"]` on an empty, non-serving
table. -/
theorem add_url_handle_failure_keeps_leading_verbs_witness :
    (ServerState.mk false []).serving = false ∧
    (add_url_handle ⟨false, []⟩ "/x" 7 (Verbs.list ["GET", "PUT"])).1
      = some (RegErr.unimplementedMethod "PUT") ∧
    ((∃ pre m suf,
        normalizeVerbs (Verbs.list ["GET", "PUT"]) = pre ++ m :: suf ∧
        VerbsAllPass "/x" 7 pre (ServerState.mk false []).route_rules ∧
        VerbFails "/x"
          ((ServerState.mk false []).route_rules
            ++ pre.map (fun v => (format_route_key "/x" v, 7))) m ∧
        (RegErr.unimplementedMethod "PUT" = RegErr.unimplementedMethod m ∨
          RegErr.unimplementedMethod "PUT" = RegErr.duplicateRoute "/x" m) ∧
        (add_url_handle ⟨false, []⟩ "/x" 7 (Verbs.list ["GET", "PUT"])).2.route_rules
          = (ServerState.mk false []).route_rules
              ++ pre.map (fun v => (format_route_key "/x" v, 7))) ∧
      (∀ m0 rest,
        normalizeVerbs (Verbs.list ["GET", "PUT"]) = m0 :: rest →
        VerbFails "/x" (ServerState.mk false []).route_rules m0 →
        (add_url_handle ⟨false, []⟩ "/x" 7 (Verbs.list ["GET", "PUT"])).2.route_rules
          = (ServerState.mk false []).route_rules)) :=
  ⟨rfl, rfl, add_url_handle_failure_keeps_leading_verbs ⟨false, []⟩ "/x" 7
    (Verbs.list ["GET", "PUT"]) (RegErr.unimplementedMethod "PUT") rfl rfl⟩

/-- C3 counterexample: a POST to a registered path with a query string
appended does NOT resolve to the registered handler.  `/foobar` is
registered for POST (the membership test on the query-stripped path
succeeds), yet dispatching a POST whose request target is
`/foobar?x=1` returns the 404 result, because `do_POST` keys the lookup
on the raw path. -/
theorem post_query_string_not_stripped_cex :
    ([("/foobar, POST", 2)].any
        (fun kv => kv.1 == format_route_key (stripQuery "/foobar?x=1") "POST")
      = true) ∧
    do_POST [("/foobar, POST", 2)] ⟨"/foobar?x=1", Option.none, ""⟩
      = .notFound :=
  ⟨rfl, rfl⟩

/-- C3 amended: only GET strips the query component before forming the
route key.  Whenever the stripped path is registered for GET, a GET
request carrying a query resolves (is not a 404); but a POST keys the
lookup on the raw request target, so even when the stripped path is
registered for POST, a request whose raw target is not itself a key
receives a 404. -/
theorem route_key_query_divergence (rules : List (String × Nat)) (raw : String)
    (ct : Option String) (body : String)
    (hget : rules.any
        (fun kv => kv.1 == format_route_key (stripQuery raw) "GET") = true)
    (_hpostStripped : rules.any
        (fun kv => kv.1 == format_route_key (stripQuery raw) "POST") = true)
    (hpostRaw : rules.any
        (fun kv => kv.1 == format_route_key raw "POST") = false) :
    do_GET rules ⟨raw⟩ ≠ .notFound ∧
    do_POST rules ⟨raw, ct, body⟩ = .notFound := by
  constructor
  · simp only [do_GET]
    rw [hget]
    simp only [Bool.not_true, Bool.false_eq_true, if_false]
    split
    · split <;> simp
    · simp
    · simp
  · simp only [do_POST]
    rw [hpostRaw]
    simp

/-- Witness for the amended C3 with `/foobar` registered for both verbs
and request target `/foobar?x=1`. -/
theorem route_key_query_divergence_witness :
    ([("/foobar, GET", 1), ("/foobar, POST", 2)].any
        (fun kv => kv.1 == format_route_key (stripQuery "/foobar?x=1") "GET")
      = true) ∧
    ([("/foobar, GET", 1), ("/foobar, POST", 2)].any
        (fun kv => kv.1 == format_route_key (stripQuery "/foobar?x=1") "POST")
      = true) ∧
    ([("/foobar, GET", 1), ("/foobar, POST", 2)].any
        (fun kv => kv.1 == format_route_key "/foobar?x=1" "POST")
      = false) ∧
    (do_GET [("/foobar, GET", 1), ("/foobar, POST", 2)] ⟨"/foobar?x=1"⟩
        ≠ .notFound ∧
      do_POST [("/foobar, GET", 1), ("/foobar, POST", 2)]
          ⟨"/foobar?x=1", Option.none, ""⟩
        = .notFound) :=
  ⟨rfl, rfl, rfl,
    route_key_query_divergence [("/foobar, GET", 1), ("/foobar, POST", 2)]
      "/foobar?x=1" Option.none "" rfl rfl rfl⟩

/-- C4 counterexample: a POST to a registered route with Content-Type
`application/json` and an EMPTY body does not reach the handler with
empty keyword arguments — `json.loads("")` raises `JSONDecodeError`, so
the error callback is invoked and a 500 is returned. -/
theorem post_json_empty_body_cex :
    do_POST [("/x, POST", 7)] ⟨"/x", some "application/json", ""⟩
      = .internalError .jsonDecodeError := rfl

/-- C4 amended: for a registered POST route with Content-Type
`application/json`, an absent or empty body raises `JSONDecodeError`,
invoking the error callback and returning 500; the empty keyword-argument
invocation happens only for bodies that PARSE to a falsy JSON value, such
as `"null"`. -/
theorem post_json_empty_vs_falsy_body (rules : List (String × Nat))
    (path : String) (hid : Nat)
    (hreg : lookupRoute rules (format_route_key path "POST") = some hid) :
    do_POST rules ⟨path, some "application/json", ""⟩
        = .internalError .jsonDecodeError ∧
    do_POST rules ⟨path, some "application/json", "null"⟩
        = .success hid (.keywords []) := by
  have hany := any_of_lookup rules (format_route_key path "POST") hid hreg
  constructor
  · have e1 : do_POST rules ⟨path, some "application/json", ""⟩
        = if !(rules.any fun kv => kv.1 == format_route_key path "POST")
          then DispatchResult.notFound
          else .internalError .jsonDecodeError := rfl
    rw [e1, hany]
    simp
  · have e2 : do_POST rules ⟨path, some "application/json", "null"⟩
        = if !(rules.any fun kv => kv.1 == format_route_key path "POST")
          then DispatchResult.notFound
          else
            match lookupRoute rules (format_route_key path "POST") with
            | some hid2 => .success hid2 (.keywords [])
            | Option.none => .internalError .keyError := rfl
    rw [e2, hany, hreg]
    simp

/-- Witness for the amended C4 at a concrete registered route. -/
theorem post_json_empty_vs_falsy_body_witness :
    lookupRoute [("/x, POST", 7)] (format_route_key "/x" "POST") = some 7 ∧
    (do_POST [("/x, POST", 7)] ⟨"/x", some "application/json", ""⟩
        = .internalError .jsonDecodeError ∧
      do_POST [("/x, POST", 7)] ⟨"/x", some "application/json", "null"⟩
        = .success 7 (.keywords [])) :=
  ⟨rfl, post_json_empty_vs_falsy_body [("/x, POST", 7)] "/x" 7 rfl⟩

/-- C1: evaluation of `do_POST` at a registered route with Content-Type
`text/plain`.  Contrary to the claim (and to the source's own comment
that plain-text bodies are handled), with a non-empty body the handler is
NOT invoked with the raw body, and with an empty body it is NOT invoked
with no arguments: in both cases the `elif body:` test reads the local
variable `body`, which is only assigned in the JSON and form branches, so
an `UnboundLocalError` is raised, the error callback is invoked, and a
500 is returned. -/
theorem post_raw_body_branch_unreachable :
    do_POST [("/x, POST", 7)] ⟨"/x", some "text/plain", "hello"⟩
      = .internalError .nameError ∧
    do_POST [("/x, POST", 7)] ⟨"/x", some "text/plain", ""⟩
      = .internalError .nameError :=
  ⟨rfl, rfl⟩

/-- C8: starting a server with an empty route table reports the
`AssertionError` condition through the error callback exactly once, still
transitions to serving, and every subsequent request — GET or POST alike,
whatever its path, headers or body — receives a 404 response (which does
not invoke the error callback). -/
theorem run_with_empty_route_table (st : ServerState)
    (hempty : st.route_rules = []) (g : GetRequest) (p : PostRequest) :
    (run_startup st).error_reports = 1 ∧
    (run_startup st).state.serving = true ∧
    do_GET st.route_rules g = .notFound ∧
    do_POST st.route_rules p = .notFound := by
  refine ⟨by simp [run_startup, hempty], by simp [run_startup], ?_, ?_⟩
  · simp [do_GET, hempty]
  · simp [do_POST, hempty]

/-- Witness for C8 at a concrete empty-table server and concrete
requests. -/
theorem run_with_empty_route_table_witness :
    (ServerState.mk false []).route_rules = [] ∧
    ((run_startup ⟨false, []⟩).error_reports = 1 ∧
      (run_startup ⟨false, []⟩).state.serving = true ∧
      do_GET (ServerState.mk false []).route_rules ⟨"/foobar?x=1"⟩ = .notFound ∧
      do_POST (ServerState.mk false []).route_rules
        ⟨"/foobar", some "application/json", ""⟩ = .notFound) :=
  ⟨rfl, run_with_empty_route_table ⟨false, []⟩ rfl ⟨"/foobar?x=1"⟩
    ⟨"/foobar", some "application/json", ""⟩⟩

end TMC
